import Mathlib

/-!
# Genre module of Go-React-ComicReader-Be: slug generation, service and handlers

A shallow embedding of
* `internal/core/service/genre_service.go` (`generateSlug`, `CreateNewGenre`,
  `FindGenreBySlug`, `UpdateGenre`, `DeleteGenre`, `ListAll`),
* `internal/core/port/repository.go` (the `GenreRepository` interface),
* `internal/handler/http/genre_handler.go` (the five handlers),
* `internal/platform/database/genre_repository.go` (the SQL repository, run
  against an in-memory table).

A Go string is modelled by the sequence of runes that `for _, r := range s`
yields (a byte that is not valid UTF-8 is yielded as U+FFFD, which is a
`Char`).  Runes are compared through their code points, as Go compares
`int32` values.
-/

namespace ComicReader

/-- A Go string, as the runes `range` yields. -/
abbrev GoString := List Char

/-! ## Go standard library: `unicode` and `strings` -/

/-- Go `unicode.ToLower`: the ASCII branch is the code of the standard library
(`if r <= MaxASCII { if 'A' <= r && r <= 'Z' { r += 'a' - 'A' }; return r }`);
above ASCII the library consults its Unicode case tables, taken here as the
parameter `caseTable`. -/
def unicodeToLower (caseTable : Char → Char) (r : Char) : Char :=
  if r.toNat ≤ 0x7F then
    if 'A'.toNat ≤ r.toNat ∧ r.toNat ≤ 'Z'.toNat then
      Char.ofNat (r.toNat + ('a'.toNat - 'A'.toNat))
    else r
  else caseTable r

/-- Go `strings.ToLower`: every rune mapped through `unicode.ToLower` (the
ASCII fast path of the library computes the same string). -/
def stringsToLower (caseTable : Char → Char) (s : GoString) : GoString :=
  s.map (unicodeToLower caseTable)

/-- Go `strings.ReplaceAll(s, old, new)` for a pattern `old` and a replacement
`new` of one rune each, the only way the service calls it. -/
def stringsReplaceAll (s : GoString) (old new : Char) : GoString :=
  s.map (fun r => if r = old then new else r)

/-- Go `unicode.IsSpace`: the Latin-1 cases and the `White_Space` table. -/
def unicodeIsSpace (r : Char) : Bool :=
  let n := r.toNat
  (0x09 ≤ n && n ≤ 0x0D) || n == 0x20 || n == 0x85 || n == 0xA0 || n == 0x1680 ||
  (0x2000 ≤ n && n ≤ 0x200A) || n == 0x2028 || n == 0x2029 || n == 0x202F ||
  n == 0x205F || n == 0x3000

/-- Go `strings.TrimSpace`: leading and trailing white space removed.  The
service only tests the result against the empty string. -/
def stringsTrimSpace (s : GoString) : GoString :=
  ((s.dropWhile unicodeIsSpace).reverse.dropWhile unicodeIsSpace).reverse

/-! ## `generateSlug` (genre_service.go, lines 39-52) -/

/-- The test of the loop body of `generateSlug`:
`(r >= 'a' && r <= 'z') || (r >= '0' && r <= '9') || r == '-'`. -/
def slugRune (r : Char) : Bool :=
  ('a'.toNat ≤ r.toNat && r.toNat ≤ 'z'.toNat) ||
  ('0'.toNat ≤ r.toNat && r.toNat ≤ '9'.toNat) || r == '-'

/-- The service's `generateSlug`: lower-case, replace spaces, then the loop that
writes the accepted runes into a `strings.Builder`. -/
def generateSlug (caseTable : Char → Char) (s : GoString) : GoString :=
  let slug := stringsToLower caseTable s
  let slug := stringsReplaceAll slug ' ' '-'
  slug.foldl (fun result r => if slugRune r then result ++ [r] else result) []

/-- The alphabet of a slug as the specification lists it: `\x7ba-z, 0-9, -\x7d`. -/
def slugAlphabet : List Char := "abcdefghijklmnopqrstuvwxyz0123456789-".toList

/-- The slug generator as the specification words it: lower-case the input,
replace each space with a hyphen, retain only the characters of the alphabet. -/
def slugSpec (caseTable : Char → Char) (name : GoString) : GoString :=
  let lowered := stringsToLower caseTable name
  let hyphenated := lowered.map (fun c => if c = ' ' then '-' else c)
  hyphenated.filter (fun c => decide (c ∈ slugAlphabet))

/-- Whether the rune `r` of a name reaches the slug: whether its lower-case
form, with the space turned into a hyphen, belongs to the alphabet.  The
slug drops the other runes of the name. -/
def slugKeeps (caseTable : Char → Char) (r : Char) : Bool :=
  decide ((if unicodeToLower caseTable r = ' ' then '-' else unicodeToLower caseTable r)
    ∈ slugAlphabet)

/-! ## Package `domain`: errors and the entity -/

/-- Modelled from the spec: package `domain` is not among the sources; its two
sentinel errors are the spec's kinds `NotFound` and `ValidationFailed`, the
package-level values `domain.ErrDataNotFound` and `domain.ErrValidationFailed`
the service and the handlers name. -/
inductive Sentinel where
  | ErrDataNotFound
  | ErrValidationFailed
  deriving DecidableEq, Repr

/-- A Go `error` value: one of the sentinels of package `domain`, a value made
by `errors.New(msg)` (a fresh pointer, equal to no sentinel; it also stands for
a driver error with that message), or an error wrapping another one
(`fmt.Errorf(pre + "%w", inner)`). -/
inductive GoError where
  | domain (e : Sentinel)
  | errorsNew (msg : GoString)
  | wrap (pre : GoString) (inner : GoError)
  deriving DecidableEq, Repr

deriving instance DecidableEq for Except

/-- Go `errors.Is(err, target)` for a sentinel `target`: identity with the
sentinel somewhere along the chain of wrapped errors. -/
def errorsIs : GoError → Sentinel → Bool
  | .domain e, target => e == target
  | .errorsNew _, _ => false
  | .wrap _ inner, target => errorsIs inner target

/-- The method `Error()`; `sentinelMsg` gives the messages of the sentinels of
package `domain`, which are not among the sources. -/
def GoError.Error (sentinelMsg : Sentinel → GoString) : GoError → GoString
  | .domain e => sentinelMsg e
  | .errorsNew msg => msg
  | .wrap pre inner => pre ++ inner.Error sentinelMsg

/-- Modelled from the spec: `domain.Genre` is not among the sources; the fields
are those of the spec's data model and of the repository's SQL statements.
A `uuid.UUID` and a `time.Time` are natural numbers. -/
structure Genre where
  ID : Nat
  Name : GoString
  Slug : GoString
  CreatedAt : Nat
  UpdatedAt : Nat
  deriving DecidableEq, Repr

/-! ## `port.GenreRepository` (repository.go) -/

/-- The interface `port.GenreRepository` over a store of type `σ`: a method
takes the store, returns its Go results and the store it leaves.  An `error`
result is `none` for `nil`.  A method reads the `*domain.Genre` it is given
and does not write through it, as the methods of genre_repository.go do. -/
structure GenreRepository (σ : Type) where
  Create : Genre → σ → Option GoError × σ
  GetBySlug : GoString → σ → Except GoError Genre × σ
  Update : Genre → σ → Option GoError × σ
  DeleteBySlug : GoString → σ → Option GoError × σ
  List : σ → Except GoError (List Genre) × σ

/-- One call of a repository method, with its arguments. -/
inductive RepoCall where
  | List
  | Create (genre : Genre)
  | GetBySlug (slug : GoString)
  | Update (genre : Genre)
  | DeleteBySlug (slug : GoString)
  deriving DecidableEq, Repr

/-- What the service reads from outside: the Unicode case tables behind
`strings.ToLower`, the `n`-th reading of `time.Now()` and the `n`-th value of
`uuid.New()`. -/
structure Runtime where
  caseTable : Char → Char
  timeNow : Nat → Nat
  uuidNew : Nat → Nat

/-- The state a service call runs in: the store behind the repository, the
repository calls made so far (oldest first), and how many clock readings and
identifiers have been drawn. -/
structure World (σ : Type) where
  store : σ
  calls : List RepoCall
  clockReads : Nat
  uuidDraws : Nat

/-! ## The service (genre_service.go) -/

namespace genreService

/-- The service's `ListAll`. -/
def ListAll {σ : Type} (repo : GenreRepository σ) (w : World σ) :
    Except GoError (List Genre) × World σ :=
  let r := repo.List w.store
  let w1 := { w with store := r.2, calls := w.calls ++ [RepoCall.List] }
  match r.1 with
  | .error err => (.error err, w1)
  | .ok genres => (.ok genres, w1)

/-- The service's `CreateNewGenre` (lines 54-79). -/
def CreateNewGenre {σ : Type} (rt : Runtime) (repo : GenreRepository σ)
    (name : GoString) (w : World σ) : Except GoError Genre × World σ :=
  if stringsTrimSpace name = [] then
    (.error (.errorsNew "genre name cannot be empty".toList), w)
  else
    let slug := generateSlug rt.caseTable name
    let newGenre : Genre :=
      { ID := rt.uuidNew w.uuidDraws
        Name := name
        Slug := slug
        CreatedAt := rt.timeNow w.clockReads
        UpdatedAt := rt.timeNow (w.clockReads + 1) }
    let r := repo.Create newGenre w.store
    let w1 : World σ :=
      { store := r.2
        calls := w.calls ++ [RepoCall.Create newGenre]
        clockReads := w.clockReads + 2
        uuidDraws := w.uuidDraws + 1 }
    match r.1 with
    | some err => (.error err, w1)
    | none => (.ok newGenre, w1)

/-- The service's `FindGenreBySlug` (lines 81-90). -/
def FindGenreBySlug {σ : Type} (repo : GenreRepository σ) (slug : GoString)
    (w : World σ) : Except GoError Genre × World σ :=
  let r := repo.GetBySlug slug w.store
  let w1 := { w with store := r.2, calls := w.calls ++ [RepoCall.GetBySlug slug] }
  match r.1 with
  | .error err => (.error err, w1)
  | .ok genre => (.ok genre, w1)

/-- The service's `UpdateGenre` (lines 92-120). -/
def UpdateGenre {σ : Type} (rt : Runtime) (repo : GenreRepository σ)
    (slug newName : GoString) (w : World σ) : Except GoError Genre × World σ :=
  let r := repo.GetBySlug slug w.store
  let w1 := { w with store := r.2, calls := w.calls ++ [RepoCall.GetBySlug slug] }
  match r.1 with
  | .error err => (.error err, w1)
  | .ok existingGenre =>
    if stringsTrimSpace newName = [] then
      (.error (.domain .ErrValidationFailed), w1)
    else
      let updated : Genre :=
        { existingGenre with
          Name := newName
          Slug := generateSlug rt.caseTable newName
          UpdatedAt := rt.timeNow w1.clockReads }
      let u := repo.Update updated w1.store
      let w2 : World σ :=
        { store := u.2
          calls := w1.calls ++ [RepoCall.Update updated]
          clockReads := w1.clockReads + 1
          uuidDraws := w1.uuidDraws }
      match u.1 with
      | some err => (.error err, w2)
      | none => (.ok updated, w2)

/-- The service's `DeleteGenre` (lines 122-128). -/
def DeleteGenre {σ : Type} (repo : GenreRepository σ) (slug : GoString)
    (w : World σ) : Option GoError × World σ :=
  let r := repo.DeleteBySlug slug w.store
  (r.1, { w with store := r.2, calls := w.calls ++ [RepoCall.DeleteBySlug slug] })

end genreService

/-! ## `port.GenreService`, as the handlers use it -/

/-- The interface `port.GenreService` over a service state of type `ω`; its
declaration is not among the sources, the five methods are those the handlers
call and `genreService` implements. -/
structure GenreService (ω : Type) where
  ListAll : ω → Except GoError (List Genre) × ω
  CreateNewGenre : GoString → ω → Except GoError Genre × ω
  FindGenreBySlug : GoString → ω → Except GoError Genre × ω
  UpdateGenre : GoString → GoString → ω → Except GoError Genre × ω
  DeleteGenre : GoString → ω → Option GoError × ω

/-- The constructor `NewGenreService`: the service over a repository. -/
def NewGenreService {σ : Type} (rt : Runtime) (genreRepo : GenreRepository σ) :
    GenreService (World σ) where
  ListAll := genreService.ListAll genreRepo
  CreateNewGenre := genreService.CreateNewGenre rt genreRepo
  FindGenreBySlug := genreService.FindGenreBySlug genreRepo
  UpdateGenre := genreService.UpdateGenre rt genreRepo
  DeleteGenre := genreService.DeleteGenre genreRepo

/-- One call of a service method, with its arguments. -/
inductive ServiceCall where
  | ListAll
  | CreateNewGenre (name : GoString)
  | FindGenreBySlug (slug : GoString)
  | UpdateGenre (slug newName : GoString)
  | DeleteGenre (slug : GoString)
  deriving DecidableEq, Repr

/-! ## The handlers (genre_handler.go) -/

/-- What a handler reads of a request: the path parameter
`chi.URLParam(r, "genreSlug")` (empty when the route has none) and the outcome
of `json.NewDecoder(r.Body).Decode(&req)`: `none` when decoding fails, else the
field `Name` of the decoded request. -/
structure Request where
  genreSlug : GoString
  body : Option GoString

/-- What a handler writes after the status line: the message given to
`http.Error` (without the newline it appends), an encoded genre or list of
genres, or nothing. -/
inductive Body where
  | text (msg : GoString)
  | genre (g : Genre)
  | genres (gs : List Genre)
  | empty
  deriving DecidableEq, Repr

/-- The response of a handler. -/
structure Response where
  status : Nat
  body : Body
  deriving DecidableEq, Repr

/-- The state a handler runs in: the state of the service behind it and the
service calls made so far (oldest first). -/
structure HandlerState (ω : Type) where
  service : ω
  serviceCalls : List ServiceCall

def StatusOK : Nat := 200
def StatusCreated : Nat := 201
def StatusNoContent : Nat := 204
def StatusBadRequest : Nat := 400
def StatusNotFound : Nat := 404
def StatusInternalServerError : Nat := 500

namespace GenreHandler

/-- The handler `ListGenres` (lines 25-42). -/
def ListGenres {ω : Type} (svc : GenreService ω) (h : HandlerState ω) :
    Response × HandlerState ω :=
  let r := svc.ListAll h.service
  let h1 : HandlerState ω :=
    { service := r.2, serviceCalls := h.serviceCalls ++ [ServiceCall.ListAll] }
  match r.1 with
  | .error _ => (⟨StatusInternalServerError, .text "Failed to retrieve genres".toList⟩, h1)
  | .ok genres => (⟨StatusOK, .genres genres⟩, h1)

/-- The handler `CreateGenre` (lines 45-79). -/
def CreateGenre {ω : Type} (sentinelMsg : Sentinel → GoString) (svc : GenreService ω)
    (req : Request) (h : HandlerState ω) : Response × HandlerState ω :=
  match req.body with
  | none => (⟨StatusBadRequest, .text "Invalid request body".toList⟩, h)
  | some name =>
    if name = [] then
      (⟨StatusBadRequest, .text "Genre name is required".toList⟩, h)
    else
      let r := svc.CreateNewGenre name h.service
      let h1 : HandlerState ω :=
        { service := r.2, serviceCalls := h.serviceCalls ++ [ServiceCall.CreateNewGenre name] }
      match r.1 with
      | .error err =>
        if err.Error sentinelMsg = "genre name cannot be empty".toList then
          (⟨StatusBadRequest, .text (err.Error sentinelMsg)⟩, h1)
        else
          (⟨StatusInternalServerError, .text "Failed to create genre".toList⟩, h1)
      | .ok createdGenre => (⟨StatusCreated, .genre createdGenre⟩, h1)

/-- The handler `GetGenreBySlug` (lines 82-105). -/
def GetGenreBySlug {ω : Type} (svc : GenreService ω) (req : Request)
    (h : HandlerState ω) : Response × HandlerState ω :=
  let slug := req.genreSlug
  if slug = [] then
    (⟨StatusBadRequest, .text "Genre slug is required".toList⟩, h)
  else
    let r := svc.FindGenreBySlug slug h.service
    let h1 : HandlerState ω :=
      { service := r.2, serviceCalls := h.serviceCalls ++ [ServiceCall.FindGenreBySlug slug] }
    match r.1 with
    | .error err =>
      if errorsIs err .ErrDataNotFound then
        (⟨StatusNotFound, .text "Genre not found".toList⟩, h1)
      else
        (⟨StatusInternalServerError, .text "Failed to retrieve genre".toList⟩, h1)
    | .ok genre => (⟨StatusOK, .genre genre⟩, h1)

/-- The handler `UpdateGenre` (lines 107-133). -/
def UpdateGenre {ω : Type} (svc : GenreService ω) (req : Request)
    (h : HandlerState ω) : Response × HandlerState ω :=
  let slug := req.genreSlug
  match req.body with
  | none => (⟨StatusBadRequest, .text "Invalid request body".toList⟩, h)
  | some name =>
    let r := svc.UpdateGenre slug name h.service
    let h1 : HandlerState ω :=
      { service := r.2, serviceCalls := h.serviceCalls ++ [ServiceCall.UpdateGenre slug name] }
    match r.1 with
    | .error err =>
      if errorsIs err .ErrDataNotFound then
        (⟨StatusNotFound, .text "Genre not found".toList⟩, h1)
      else if errorsIs err .ErrValidationFailed then
        (⟨StatusBadRequest, .text "Invalid genre name".toList⟩, h1)
      else
        (⟨StatusInternalServerError, .text "Failed to update genre".toList⟩, h1)
    | .ok updatedGenre => (⟨StatusOK, .genre updatedGenre⟩, h1)

/-- The handler `DeleteGenre` (lines 136-151). -/
def DeleteGenre {ω : Type} (svc : GenreService ω) (req : Request)
    (h : HandlerState ω) : Response × HandlerState ω :=
  let slug := req.genreSlug
  let r := svc.DeleteGenre slug h.service
  let h1 : HandlerState ω :=
    { service := r.2, serviceCalls := h.serviceCalls ++ [ServiceCall.DeleteGenre slug] }
  match r.1 with
  | some err =>
    if errorsIs err .ErrDataNotFound then
      (⟨StatusNotFound, .text "Genre not found".toList⟩, h1)
    else
      (⟨StatusInternalServerError, .text "Failed to delete genre".toList⟩, h1)
  | none => (⟨StatusNoContent, .empty⟩, h1)

end GenreHandler

/-! ## The SQL repository (genre_repository.go) over an in-memory table -/

namespace genreRepository

/-- The table `genres`: its rows, oldest first. -/
abbrev Table := List Genre

/-- The method `List`: `SELECT ... ORDER BY name ASC` (names ordered rune by rune). -/
def List (rows : Table) : Except GoError (List Genre) × Table :=
  (.ok (rows.mergeSort (fun a b => decide (a.Name ≤ b.Name))), rows)

/-- The method `Create`: `INSERT INTO genres ...`. -/
def Create (genre : Genre) (rows : Table) : Option GoError × Table :=
  (none, rows ++ [genre])

/-- The method `GetBySlug`: `SELECT ... WHERE slug = $1`, the first row scanned;
no row is `domain.ErrDataNotFound`. -/
def GetBySlug (slug : GoString) (rows : Table) : Except GoError Genre × Table :=
  match rows.find? (fun g => g.Slug = slug) with
  | none => (.error (.domain .ErrDataNotFound), rows)
  | some g => (.ok g, rows)

/-- The method `Update`: `UPDATE genres SET name, slug, updated_at WHERE id = $4`;
no row affected is `domain.ErrDataNotFound`. -/
def Update (genre : Genre) (rows : Table) : Option GoError × Table :=
  let rowsAffected := rows.countP (fun g => g.ID = genre.ID)
  let rows1 := rows.map (fun g =>
    if g.ID = genre.ID then
      { g with Name := genre.Name, Slug := genre.Slug, UpdatedAt := genre.UpdatedAt }
    else g)
  if rowsAffected = 0 then (some (.domain .ErrDataNotFound), rows1) else (none, rows1)

/-- The method `DeleteBySlug`: `DELETE FROM genres WHERE slug = $1`; no row
affected is `domain.ErrDataNotFound`. -/
def DeleteBySlug (slug : GoString) (rows : Table) : Option GoError × Table :=
  let rowsAffected := rows.countP (fun g => g.Slug = slug)
  let rows1 := rows.filter (fun g => g.Slug ≠ slug)
  if rowsAffected = 0 then (some (.domain .ErrDataNotFound), rows1) else (none, rows1)

end genreRepository

/-- The constructor `NewGenreRepository`, over a table that accepts every
statement (a reachable database, a table without constraints). -/
def NewGenreRepository : GenreRepository genreRepository.Table where
  Create := genreRepository.Create
  GetBySlug := genreRepository.GetBySlug
  Update := genreRepository.Update
  DeleteBySlug := genreRepository.DeleteBySlug
  List := genreRepository.List

/-! ## Values for the examples -/

/-- A runtime for the examples, whose names are ASCII: the case table is not
consulted, the clock reads 1000, 1001, ... and the identifiers are 1, 2, ... -/
def exampleRuntime : Runtime where
  caseTable := fun r => r
  timeNow := fun n => 1000 + n
  uuidNew := fun n => 1 + n

/-- A stored genre for the examples. -/
def exampleGenre : Genre where
  ID := 7
  Name := "Action".toList
  Slug := "action".toList
  CreatedAt := 10
  UpdatedAt := 10

/-- The genre that `CreateNewGenre` makes of the name `!!!`: its slug is empty. -/
def punctuationGenre : Genre where
  ID := 1
  Name := "!!!".toList
  Slug := []
  CreatedAt := 1000
  UpdatedAt := 1001

/-- A world over the in-memory table holding the given rows, before any call. -/
def exampleWorld (rows : genreRepository.Table) : World genreRepository.Table where
  store := rows
  calls := []
  clockReads := 0
  uuidDraws := 0

/-- A service whose every method fails with the given error, for the examples. -/
def failingService (err : GoError) : GenreService Unit where
  ListAll := fun st => (.error err, st)
  CreateNewGenre := fun _ st => (.error err, st)
  FindGenreBySlug := fun _ st => (.error err, st)
  UpdateGenre := fun _ _ st => (.error err, st)
  DeleteGenre := fun _ st => (some err, st)

/-- The handler state over the service over the in-memory table, before any call. -/
def exampleHandlerState (rows : genreRepository.Table) :
    HandlerState (World genreRepository.Table) where
  service := exampleWorld rows
  serviceCalls := []

/-! ## Lemmas on the slug generator -/

theorem foldl_builder_eq (p : Char → Bool) (l acc : List Char) :
    l.foldl (fun result r => if p r then result ++ [r] else result) acc
      = acc ++ l.filter p := by
  induction l generalizing acc with
  | nil => simp
  | cons x xs ih =>
    simp only [List.foldl_cons, List.filter_cons]
    by_cases h : p x <;> simp [h, ih]

theorem generateSlug_eq_filter (caseTable : Char → Char) (s : GoString) :
    generateSlug caseTable s
      = ((stringsToLower caseTable s).map (fun r => if r = ' ' then '-' else r)).filter slugRune := by
  simp [generateSlug, stringsReplaceAll, foldl_builder_eq]

theorem slugRune_iff (r : Char) :
    slugRune r = true ↔
      (97 ≤ r.toNat ∧ r.toNat ≤ 122) ∨ (48 ≤ r.toNat ∧ r.toNat ≤ 57) ∨ r.toNat = 45 := by
  have h : (r = '-') ↔ r.toNat = 45 := by
    constructor
    · intro e; subst e; rfl
    · intro e
      have := Char.ofNat_toNat r
      rw [e] at this
      exact this.symm
  simp only [slugRune, Bool.or_eq_true, Bool.and_eq_true, decide_eq_true_eq, beq_iff_eq, h]
  have ha : 'a'.toNat = 97 := rfl
  have hz : 'z'.toNat = 122 := rfl
  have h0 : '0'.toNat = 48 := rfl
  have h9 : '9'.toNat = 57 := rfl
  rw [ha, hz, h0, h9]
  tauto

theorem slugRune_iff_mem (r : Char) : slugRune r = true ↔ r ∈ slugAlphabet := by
  constructor
  · intro h
    rw [slugRune_iff] at h
    have hr : r = Char.ofNat r.toNat := (Char.ofNat_toNat r).symm
    generalize r.toNat = n at h hr
    subst hr
    rcases h with ⟨h1, h2⟩ | ⟨h1, h2⟩ | h1
    · interval_cases n <;> decide
    · interval_cases n <;> decide
    · subst h1; decide
  · intro h
    have hall : ∀ x ∈ slugAlphabet, slugRune x = true := by decide
    exact hall r h

theorem unicodeToLower_slugRune (caseTable : Char → Char) (r : Char)
    (h : slugRune r = true) : unicodeToLower caseTable r = r := by
  rw [slugRune_iff] at h
  have hA : 'A'.toNat = 65 := rfl
  have hZ : 'Z'.toNat = 90 := rfl
  unfold unicodeToLower
  rw [hA, hZ]
  have h1 : r.toNat ≤ 0x7F := by omega
  have h2 : ¬ (65 ≤ r.toNat ∧ r.toNat ≤ 90) := by omega
  simp [h1, h2]

theorem slugRune_ne_space (r : Char) (h : slugRune r = true) : r ≠ ' ' := by
  intro e
  subst e
  revert h
  decide

theorem generateSlug_fixed (caseTable : Char → Char) (s : GoString)
    (h : ∀ c ∈ s, slugRune c = true) : generateSlug caseTable s = s := by
  rw [generateSlug_eq_filter, stringsToLower]
  have e1 : s.map (unicodeToLower caseTable) = s := by
    calc s.map (unicodeToLower caseTable) = s.map id :=
          List.map_congr_left (fun c hc => unicodeToLower_slugRune caseTable c (h c hc))
      _ = s := List.map_id s
  have e2 : s.map (fun r => if r = ' ' then '-' else r) = s := by
    calc s.map (fun r => if r = ' ' then '-' else r) = s.map id :=
          List.map_congr_left (fun c hc => by simp [slugRune_ne_space c (h c hc)])
      _ = s := List.map_id s
  rw [e1, e2]
  exact List.filter_eq_self.mpr h

theorem generateSlug_slugRune (caseTable : Char → Char) (s : GoString) :
    ∀ c ∈ generateSlug caseTable s, slugRune c = true := by
  intro c hc
  rw [generateSlug_eq_filter] at hc
  exact (List.mem_filter.mp hc).2

theorem stringsTrimSpace_eq_nil_iff (s : GoString) :
    stringsTrimSpace s = [] ↔ ∀ c ∈ s, unicodeIsSpace c = true := by
  unfold stringsTrimSpace
  rw [List.reverse_eq_nil_iff, List.dropWhile_eq_nil_iff]
  constructor
  · intro h
    have hnil : s.dropWhile unicodeIsSpace = [] := by
      by_contra hne
      have hn := List.head_dropWhile_not unicodeIsSpace s hne
      have hsp := h _ (List.mem_reverse.mpr (List.head_mem hne))
      rw [hsp] at hn
      exact absurd hn (by simp)
    exact List.dropWhile_eq_nil_iff.mp hnil
  · intro h x hx
    have hx1 : x ∈ s.dropWhile unicodeIsSpace := List.mem_reverse.mp hx
    exact h x ((List.dropWhile_sublist unicodeIsSpace).subset hx1)

/-! ## Claims on the slug generator -/

/-- C1: every rune of `generateSlug name` belongs to the alphabet a-z, 0-9, `-`;
so it is no space and no upper-case letter (lower-casing leaves it as it is). -/
theorem generateSlug_alphabet (caseTable : Char → Char) (name : GoString) :
    ∀ c ∈ generateSlug caseTable name,
      c ∈ slugAlphabet ∧ c ≠ ' ' ∧ ¬ ('A'.toNat ≤ c.toNat ∧ c.toNat ≤ 'Z'.toNat) ∧
        unicodeToLower caseTable c = c := by
  intro c hc
  have h := generateSlug_slugRune caseTable name c hc
  refine ⟨(slugRune_iff_mem c).mp h, slugRune_ne_space c h, ?_,
    unicodeToLower_slugRune caseTable c h⟩
  rw [slugRune_iff] at h
  have hA : 'A'.toNat = 65 := rfl
  have hZ : 'Z'.toNat = 90 := rfl
  rw [hA, hZ]
  omega

theorem generateSlug_alphabet_witness :
    'c' ∈ generateSlug (fun r => r) "Action Comedy!".toList ∧
      ('c' ∈ slugAlphabet ∧ 'c' ≠ ' ' ∧ ¬ ('A'.toNat ≤ 'c'.toNat ∧ 'c'.toNat ≤ 'Z'.toNat) ∧
        unicodeToLower (fun r => r) 'c' = 'c') :=
  ⟨by decide, generateSlug_alphabet (fun r => r) "Action Comedy!".toList 'c' (by decide)⟩

/-- C8: `generateSlug` is idempotent, and every string over the alphabet
a-z, 0-9, `-` is a fixed point of it. -/
theorem generateSlug_idempotent (caseTable : Char → Char) :
    (∀ x : GoString,
      generateSlug caseTable (generateSlug caseTable x) = generateSlug caseTable x) ∧
    (∀ s : GoString, (∀ c ∈ s, c ∈ slugAlphabet) → generateSlug caseTable s = s) := by
  constructor
  · intro x
    exact generateSlug_fixed caseTable _ (generateSlug_slugRune caseTable x)
  · intro s hs
    exact generateSlug_fixed caseTable s (fun c hc => (slugRune_iff_mem c).mpr (hs c hc))

theorem generateSlug_idempotent_witness :
    generateSlug (fun r => r) (generateSlug (fun r => r) "Sci-Fi Noir 2".toList)
        = generateSlug (fun r => r) "Sci-Fi Noir 2".toList ∧
      (∀ c ∈ "sci-fi-noir-2".toList, c ∈ slugAlphabet) ∧
      generateSlug (fun r => r) "sci-fi-noir-2".toList = "sci-fi-noir-2".toList :=
  ⟨(generateSlug_idempotent (fun r => r)).1 "Sci-Fi Noir 2".toList, by decide,
    (generateSlug_idempotent (fun r => r)).2 "sci-fi-noir-2".toList (by decide)⟩

/-! ## Claims on the service -/

theorem generateSlug_eq_slugSpec (caseTable : Char → Char) (name : GoString) :
    generateSlug caseTable name = slugSpec caseTable name := by
  rw [generateSlug_eq_filter, slugSpec]
  apply List.filter_congr
  intro c _
  rw [Bool.eq_iff_iff, slugRune_iff_mem]
  simp

theorem nonblank_trim (s : GoString) (h : ∃ c ∈ s, unicodeIsSpace c = false) :
    stringsTrimSpace s ≠ [] := by
  intro e
  obtain ⟨c, hc, hsp⟩ := h
  have := (stringsTrimSpace_eq_nil_iff s).mp e c hc
  rw [this] at hsp
  exact absurd hsp (by simp)

/-- C2: `generateSlug` is the specification's slug generator (lower-case, each
space replaced by a hyphen, only the alphabet retained, order kept); the four
examples; and when the name is not blank and the repository accepts the new
genre, `CreateNewGenre name` returns a genre with that name and the slug
`generateSlug name`. -/
theorem generateSlug_refines_spec {σ : Type} (rt : Runtime) (repo : GenreRepository σ) :
    (∀ name : GoString, generateSlug rt.caseTable name = slugSpec rt.caseTable name) ∧
    generateSlug rt.caseTable "Action Comedy!".toList = "action-comedy".toList ∧
    generateSlug rt.caseTable "Sci-Fi".toList = "sci-fi".toList ∧
    generateSlug rt.caseTable "Science Fiction".toList = "science-fiction".toList ∧
    generateSlug rt.caseTable [] = [] ∧
    (∀ (name : GoString) (w : World σ) (g : Genre),
      g = { ID := rt.uuidNew w.uuidDraws, Name := name,
            Slug := generateSlug rt.caseTable name,
            CreatedAt := rt.timeNow w.clockReads,
            UpdatedAt := rt.timeNow (w.clockReads + 1) } →
      (∃ c ∈ name, unicodeIsSpace c = false) →
      (repo.Create g w.store).1 = none →
      (genreService.CreateNewGenre rt repo name w).1 = .ok g ∧
        g.Name = name ∧ g.Slug = generateSlug rt.caseTable name) := by
  refine ⟨generateSlug_eq_slugSpec rt.caseTable, ?_, ?_, ?_, rfl, ?_⟩
  · simp [generateSlug, stringsToLower, stringsReplaceAll, unicodeToLower, slugRune]
  · simp [generateSlug, stringsToLower, stringsReplaceAll, unicodeToLower, slugRune]
  · simp [generateSlug, stringsToLower, stringsReplaceAll, unicodeToLower, slugRune]
  intro name w g hg hname hcreate
  subst hg
  have ht := nonblank_trim name hname
  simp only [genreService.CreateNewGenre, ht, if_false]
  rw [hcreate]
  simp

theorem generateSlug_refines_spec_witness :
    (∃ c ∈ "Sci-Fi".toList, unicodeIsSpace c = false) ∧
    (NewGenreRepository.Create
        { ID := 1, Name := "Sci-Fi".toList, Slug := "sci-fi".toList,
          CreatedAt := 1000, UpdatedAt := 1001 } []).1 = none ∧
    (genreService.CreateNewGenre exampleRuntime NewGenreRepository "Sci-Fi".toList
        (exampleWorld [])).1
      = .ok { ID := 1, Name := "Sci-Fi".toList, Slug := "sci-fi".toList,
              CreatedAt := 1000, UpdatedAt := 1001 } :=
  ⟨⟨'S', by decide, by decide⟩, rfl,
    ((generateSlug_refines_spec exampleRuntime NewGenreRepository).2.2.2.2.2
      "Sci-Fi".toList (exampleWorld [])
      { ID := 1, Name := "Sci-Fi".toList, Slug := "sci-fi".toList,
        CreatedAt := 1000, UpdatedAt := 1001 }
      (by decide) ⟨'S', by decide, by decide⟩ rfl).1⟩

/-- C3 (as the code has it): for a name that is empty or all white space,
`CreateNewGenre` returns no genre and the error made by
`errors.New("genre name cannot be empty")`, which is not
`domain.ErrValidationFailed`; no repository method is called and the world,
store included, is as before. -/
theorem CreateNewGenre_blank {σ : Type} (rt : Runtime) (repo : GenreRepository σ)
    (name : GoString) (w : World σ) (hblank : ∀ c ∈ name, unicodeIsSpace c = true) :
    genreService.CreateNewGenre rt repo name w
        = (.error (.errorsNew "genre name cannot be empty".toList), w) ∧
      errorsIs (.errorsNew "genre name cannot be empty".toList) .ErrValidationFailed = false := by
  have ht := (stringsTrimSpace_eq_nil_iff name).mpr hblank
  simp only [genreService.CreateNewGenre, ht, if_true]
  exact ⟨trivial, rfl⟩

theorem CreateNewGenre_blank_witness :
    (∀ c ∈ " \t ".toList, unicodeIsSpace c = true) ∧
    (genreService.CreateNewGenre exampleRuntime NewGenreRepository " \t ".toList
        (exampleWorld [exampleGenre])).2.calls = [] ∧
    (genreService.CreateNewGenre exampleRuntime NewGenreRepository " \t ".toList
        (exampleWorld [exampleGenre])).2.store = [exampleGenre] :=
  ⟨by decide,
    by rw [(CreateNewGenre_blank exampleRuntime NewGenreRepository " \t ".toList
        (exampleWorld [exampleGenre]) (by decide)).1]; rfl,
    by rw [(CreateNewGenre_blank exampleRuntime NewGenreRepository " \t ".toList
        (exampleWorld [exampleGenre]) (by decide)).1]; rfl⟩

/-- C3, the claim as stated, fails: for the empty name the error returned by
`CreateNewGenre` is not `domain.ErrValidationFailed`. -/
theorem CreateNewGenre_blank_not_sentinel :
    ∃ err, (genreService.CreateNewGenre exampleRuntime NewGenreRepository []
        (exampleWorld [])).1 = .error err ∧
      errorsIs err .ErrValidationFailed = false ∧ err ≠ .domain .ErrValidationFailed :=
  ⟨.errorsNew "genre name cannot be empty".toList, rfl, rfl, by decide⟩

theorem UpdateGenre_ok_eq {σ : Type} (rt : Runtime) (repo : GenreRepository σ)
    (slug newName : GoString) (w : World σ) (g : Genre)
    (hget : (repo.GetBySlug slug w.store).1 = .ok g)
    (hname : stringsTrimSpace newName ≠ []) :
    genreService.UpdateGenre rt repo slug newName w =
      (match (repo.Update
          { g with Name := newName, Slug := generateSlug rt.caseTable newName,
                   UpdatedAt := rt.timeNow w.clockReads }
          (repo.GetBySlug slug w.store).2).1 with
        | some err => .error err
        | none => .ok { g with Name := newName, Slug := generateSlug rt.caseTable newName,
                               UpdatedAt := rt.timeNow w.clockReads },
       { store := (repo.Update
            { g with Name := newName, Slug := generateSlug rt.caseTable newName,
                     UpdatedAt := rt.timeNow w.clockReads }
            (repo.GetBySlug slug w.store).2).2
         calls := w.calls ++ [RepoCall.GetBySlug slug,
            RepoCall.Update { g with Name := newName, Slug := generateSlug rt.caseTable newName,
                                     UpdatedAt := rt.timeNow w.clockReads }]
         clockReads := w.clockReads + 1
         uuidDraws := w.uuidDraws }) := by
  simp only [genreService.UpdateGenre, hget, hname, if_false]
  cases (repo.Update
      { g with Name := newName, Slug := generateSlug rt.caseTable newName,
               UpdatedAt := rt.timeNow w.clockReads }
      (repo.GetBySlug slug w.store).2).1 <;> simp

/-- C4: when the repository resolves `slug` to `g`, `newName` is not blank and
the repository `Update` succeeds, `UpdateGenre` returns a genre with the `ID`
and `CreatedAt` of `g`, the name `newName`, the slug `generateSlug newName` and
as `UpdatedAt` the one clock reading of the call; the repository calls of the
call are `GetBySlug slug` and then `Update` of that same genre. -/
theorem UpdateGenre_success {σ : Type} (rt : Runtime) (repo : GenreRepository σ)
    (slug newName : GoString) (w : World σ) (g : Genre)
    (hget : (repo.GetBySlug slug w.store).1 = .ok g)
    (hname : ∃ c ∈ newName, unicodeIsSpace c = false)
    (hupd : (repo.Update
        { g with Name := newName, Slug := generateSlug rt.caseTable newName,
                 UpdatedAt := rt.timeNow w.clockReads }
        (repo.GetBySlug slug w.store).2).1 = none) :
    ∃ g', (genreService.UpdateGenre rt repo slug newName w).1 = .ok g' ∧
      g'.ID = g.ID ∧ g'.CreatedAt = g.CreatedAt ∧ g'.Name = newName ∧
      g'.Slug = generateSlug rt.caseTable newName ∧
      g'.UpdatedAt = rt.timeNow w.clockReads ∧
      (genreService.UpdateGenre rt repo slug newName w).2.clockReads = w.clockReads + 1 ∧
      (genreService.UpdateGenre rt repo slug newName w).2.calls
        = w.calls ++ [RepoCall.GetBySlug slug, RepoCall.Update g'] := by
  rw [UpdateGenre_ok_eq rt repo slug newName w g hget (nonblank_trim newName hname), hupd]
  exact ⟨_, rfl, rfl, rfl, rfl, rfl, rfl, rfl, rfl⟩

theorem UpdateGenre_success_witness :
    ∃ g', (genreService.UpdateGenre exampleRuntime NewGenreRepository "action".toList
        "Drama".toList (exampleWorld [exampleGenre])).1 = .ok g' ∧
      g'.ID = exampleGenre.ID ∧ g'.CreatedAt = exampleGenre.CreatedAt ∧
      g'.Name = "Drama".toList ∧
      g'.Slug = generateSlug exampleRuntime.caseTable "Drama".toList ∧
      g'.UpdatedAt = exampleRuntime.timeNow (exampleWorld [exampleGenre]).clockReads ∧
      (genreService.UpdateGenre exampleRuntime NewGenreRepository "action".toList
        "Drama".toList (exampleWorld [exampleGenre])).2.clockReads
        = (exampleWorld [exampleGenre]).clockReads + 1 ∧
      (genreService.UpdateGenre exampleRuntime NewGenreRepository "action".toList
        "Drama".toList (exampleWorld [exampleGenre])).2.calls
        = (exampleWorld [exampleGenre]).calls
            ++ [RepoCall.GetBySlug "action".toList, RepoCall.Update g'] :=
  UpdateGenre_success exampleRuntime NewGenreRepository "action".toList "Drama".toList
    (exampleWorld [exampleGenre]) exampleGenre (by decide) ⟨'D', by decide, by decide⟩
    (by decide)

theorem generateSlug_congr_lower (caseTable : Char → Char) (a b : GoString)
    (h : stringsToLower caseTable a = stringsToLower caseTable b) :
    generateSlug caseTable a = generateSlug caseTable b := by
  simp only [generateSlug, h]

theorem generateSlug_eq_map_kept (caseTable : Char → Char) (s : GoString) :
    generateSlug caseTable s
      = (s.filter (slugKeeps caseTable)).map
          (fun r => if unicodeToLower caseTable r = ' ' then '-'
            else unicodeToLower caseTable r) := by
  rw [generateSlug_eq_filter, stringsToLower, List.map_map, List.filter_map]
  congr 1
  apply List.filter_congr
  intro c _
  simp only [Function.comp, slugKeeps]
  rw [Bool.eq_iff_iff, slugRune_iff_mem]
  simp

theorem generateSlug_congr_kept (caseTable : Char → Char) (a b : GoString)
    (h : a.filter (slugKeeps caseTable) = b.filter (slugKeeps caseTable)) :
    generateSlug caseTable a = generateSlug caseTable b := by
  rw [generateSlug_eq_map_kept, generateSlug_eq_map_kept, h]

/-- C5 (as the code has it): after a successful `UpdateGenre` of a genre `g`
whose slug is `generateSlug g.Name`, the returned slug is
`generateSlug newName`.  It differs from the slug of `g` exactly when the two
names differ once lower-cased, spaces turned into hyphens and the runes
outside the alphabet dropped (the specification's slug of each name).  So the
slug is kept when the two names have the same lower-case form, and when they
are the same once the runes the slug drops are removed; and it changes when
the names are two different strings over the alphabet. -/
theorem UpdateGenre_slug_changes_iff {σ : Type} (rt : Runtime) (repo : GenreRepository σ)
    (slug newName : GoString) (w : World σ) (g : Genre)
    (hget : (repo.GetBySlug slug w.store).1 = .ok g)
    (hname : ∃ c ∈ newName, unicodeIsSpace c = false)
    (hupd : (repo.Update
        { g with Name := newName, Slug := generateSlug rt.caseTable newName,
                 UpdatedAt := rt.timeNow w.clockReads }
        (repo.GetBySlug slug w.store).2).1 = none)
    (hslug : g.Slug = generateSlug rt.caseTable g.Name) :
    ∃ g', (genreService.UpdateGenre rt repo slug newName w).1 = .ok g' ∧
      g'.Slug = generateSlug rt.caseTable newName ∧
      (g'.Slug ≠ g.Slug ↔
        slugSpec rt.caseTable newName ≠ slugSpec rt.caseTable g.Name) ∧
      (stringsToLower rt.caseTable newName = stringsToLower rt.caseTable g.Name →
        g'.Slug = g.Slug) ∧
      (newName.filter (slugKeeps rt.caseTable) = g.Name.filter (slugKeeps rt.caseTable) →
        g'.Slug = g.Slug) ∧
      ((∀ c ∈ newName, c ∈ slugAlphabet) → (∀ c ∈ g.Name, c ∈ slugAlphabet) →
        newName ≠ g.Name → g'.Slug ≠ g.Slug) := by
  rw [UpdateGenre_ok_eq rt repo slug newName w g hget (nonblank_trim newName hname), hupd]
  refine ⟨_, rfl, rfl, ?_, ?_, ?_, ?_⟩
  · show generateSlug rt.caseTable newName ≠ g.Slug ↔ _
    rw [hslug, generateSlug_eq_slugSpec, generateSlug_eq_slugSpec]
  · intro hlow
    show generateSlug rt.caseTable newName = g.Slug
    rw [hslug]
    exact generateSlug_congr_lower rt.caseTable newName g.Name hlow
  · intro hkept
    show generateSlug rt.caseTable newName = g.Slug
    rw [hslug]
    exact generateSlug_congr_kept rt.caseTable newName g.Name hkept
  · intro hnew hold hne
    show generateSlug rt.caseTable newName ≠ g.Slug
    rw [hslug,
      generateSlug_fixed rt.caseTable newName (fun c hc => (slugRune_iff_mem c).mpr (hnew c hc)),
      generateSlug_fixed rt.caseTable g.Name (fun c hc => (slugRune_iff_mem c).mpr (hold c hc))]
    exact hne

theorem UpdateGenre_slug_changes_iff_witness :
    (∃ g', (genreService.UpdateGenre exampleRuntime NewGenreRepository "action".toList
        "Drama".toList (exampleWorld [exampleGenre])).1 = .ok g' ∧
      g'.Slug = "drama".toList ∧ g'.Slug ≠ exampleGenre.Slug) ∧
    (∃ g', (genreService.UpdateGenre exampleRuntime NewGenreRepository "action".toList
        "ACTION".toList (exampleWorld [exampleGenre])).1 = .ok g' ∧
      "ACTION".toList ≠ exampleGenre.Name ∧ g'.Slug = exampleGenre.Slug) ∧
    (∃ g', (genreService.UpdateGenre exampleRuntime NewGenreRepository "action".toList
        "Action!".toList (exampleWorld [exampleGenre])).1 = .ok g' ∧
      "Action!".toList ≠ exampleGenre.Name ∧ g'.Slug = exampleGenre.Slug) :=
  ⟨match UpdateGenre_slug_changes_iff exampleRuntime NewGenreRepository "action".toList
        "Drama".toList (exampleWorld [exampleGenre]) exampleGenre (by decide)
        ⟨'D', by decide, by decide⟩ (by decide) (by decide) with
    | ⟨g', h1, h2, h3, _⟩ => ⟨g', h1, h2.trans (by decide), h3.mpr (by decide)⟩,
   match UpdateGenre_slug_changes_iff exampleRuntime NewGenreRepository "action".toList
        "ACTION".toList (exampleWorld [exampleGenre]) exampleGenre (by decide)
        ⟨'A', by decide, by decide⟩ (by decide) (by decide) with
    | ⟨g', h1, _, _, h4, _⟩ => ⟨g', h1, by decide, h4 (by decide)⟩,
   match UpdateGenre_slug_changes_iff exampleRuntime NewGenreRepository "action".toList
        "Action!".toList (exampleWorld [exampleGenre]) exampleGenre (by decide)
        ⟨'A', by decide, by decide⟩ (by decide) (by decide) with
    | ⟨g', h1, _, _, _, h5, _⟩ => ⟨g', h1, by decide, h5 (by decide)⟩⟩

/-- C5, the claim as stated, fails: the stored genre named `Action` has the slug
`action`; updating it to the different, non-blank name `action` succeeds and
returns a genre with the same slug. -/
theorem UpdateGenre_slug_unchanged :
    "action".toList ≠ exampleGenre.Name ∧
    exampleGenre.Slug = generateSlug exampleRuntime.caseTable exampleGenre.Name ∧
    (∃ c ∈ "action".toList, unicodeIsSpace c = false) ∧
    (NewGenreRepository.GetBySlug "action".toList [exampleGenre]).1 = .ok exampleGenre ∧
    ∃ g', (genreService.UpdateGenre exampleRuntime NewGenreRepository "action".toList
        "action".toList (exampleWorld [exampleGenre])).1 = .ok g' ∧
      g'.Name = "action".toList ∧ g'.Slug = exampleGenre.Slug :=
  ⟨by decide, by decide, ⟨'a', by decide, by decide⟩, by decide,
    ⟨{ exampleGenre with Name := "action".toList, UpdatedAt := 1000 },
      by decide, by decide, by decide⟩⟩

/-- C9: `UpdateGenre` looks the genre up before it validates the name, and a
failure leaves the store to the lookup alone.  If `GetBySlug slug` fails,
`UpdateGenre` returns that very error for every `newName`; if it finds a genre
and `newName` is empty or all white space, `UpdateGenre` returns
`domain.ErrValidationFailed`.  In both cases the only repository call of the
call is `GetBySlug slug`: `Update` is not called, no clock reading is taken and
the store is the one the lookup leaves, hence unchanged when the lookup does
not write. -/
theorem UpdateGenre_failure_atomic {σ : Type} (rt : Runtime) (repo : GenreRepository σ)
    (slug newName : GoString) (w : World σ) :
    (∀ err, (repo.GetBySlug slug w.store).1 = .error err →
      genreService.UpdateGenre rt repo slug newName w =
        (.error err, { w with store := (repo.GetBySlug slug w.store).2,
                              calls := w.calls ++ [RepoCall.GetBySlug slug] })) ∧
    (∀ g, (repo.GetBySlug slug w.store).1 = .ok g →
      (∀ c ∈ newName, unicodeIsSpace c = true) →
      genreService.UpdateGenre rt repo slug newName w =
        (.error (.domain .ErrValidationFailed),
          { w with store := (repo.GetBySlug slug w.store).2,
                   calls := w.calls ++ [RepoCall.GetBySlug slug] })) ∧
    (((∃ err, (repo.GetBySlug slug w.store).1 = .error err) ∨
        (∀ c ∈ newName, unicodeIsSpace c = true)) →
      (genreService.UpdateGenre rt repo slug newName w).2.calls
          = w.calls ++ [RepoCall.GetBySlug slug] ∧
        (∀ g', RepoCall.Update g' ∈ (genreService.UpdateGenre rt repo slug newName w).2.calls →
          RepoCall.Update g' ∈ w.calls) ∧
        ((repo.GetBySlug slug w.store).2 = w.store →
          (genreService.UpdateGenre rt repo slug newName w).2.store = w.store)) := by
  have hfail : ∀ err, (repo.GetBySlug slug w.store).1 = .error err →
      genreService.UpdateGenre rt repo slug newName w =
        (.error err, { w with store := (repo.GetBySlug slug w.store).2,
                              calls := w.calls ++ [RepoCall.GetBySlug slug] }) := by
    intro err herr
    simp only [genreService.UpdateGenre, herr]
  have hblank : ∀ g, (repo.GetBySlug slug w.store).1 = .ok g →
      (∀ c ∈ newName, unicodeIsSpace c = true) →
      genreService.UpdateGenre rt repo slug newName w =
        (.error (.domain .ErrValidationFailed),
          { w with store := (repo.GetBySlug slug w.store).2,
                   calls := w.calls ++ [RepoCall.GetBySlug slug] }) := by
    intro g hg hb
    have ht := (stringsTrimSpace_eq_nil_iff newName).mpr hb
    simp only [genreService.UpdateGenre, hg, ht, if_true]
  refine ⟨hfail, hblank, ?_⟩
  intro hcase
  have hshape : ∃ e, genreService.UpdateGenre rt repo slug newName w =
      (.error e, { w with store := (repo.GetBySlug slug w.store).2,
                          calls := w.calls ++ [RepoCall.GetBySlug slug] }) := by
    cases hres : (repo.GetBySlug slug w.store).1 with
    | error err => exact ⟨err, hfail err hres⟩
    | ok g =>
      rcases hcase with ⟨err, herr⟩ | hb
      · rw [hres] at herr
        cases herr
      · exact ⟨_, hblank g hres hb⟩
  obtain ⟨e, he⟩ := hshape
  rw [he]
  refine ⟨rfl, ?_, fun hro => hro⟩
  intro g' hmem
  simpa using hmem

theorem UpdateGenre_failure_atomic_witness :
    (NewGenreRepository.GetBySlug "drama".toList [exampleGenre]).1
        = .error (.domain .ErrDataNotFound) ∧
    (genreService.UpdateGenre exampleRuntime NewGenreRepository "drama".toList []
        (exampleWorld [exampleGenre])).1 = .error (.domain .ErrDataNotFound) ∧
    (NewGenreRepository.GetBySlug "action".toList [exampleGenre]).1 = .ok exampleGenre ∧
    (∀ c ∈ "  ".toList, unicodeIsSpace c = true) ∧
    (genreService.UpdateGenre exampleRuntime NewGenreRepository "action".toList "  ".toList
        (exampleWorld [exampleGenre])).1 = .error (.domain .ErrValidationFailed) ∧
    (genreService.UpdateGenre exampleRuntime NewGenreRepository "action".toList "  ".toList
        (exampleWorld [exampleGenre])).2.store = [exampleGenre] :=
  ⟨by decide,
    by rw [(UpdateGenre_failure_atomic exampleRuntime NewGenreRepository "drama".toList []
        (exampleWorld [exampleGenre])).1 (.domain .ErrDataNotFound) (by decide)],
    by decide, by decide,
    by rw [(UpdateGenre_failure_atomic exampleRuntime NewGenreRepository "action".toList
        "  ".toList (exampleWorld [exampleGenre])).2.1 exampleGenre (by decide) (by decide)],
    ((UpdateGenre_failure_atomic exampleRuntime NewGenreRepository "action".toList
        "  ".toList (exampleWorld [exampleGenre])).2.2 (Or.inr (by decide))).2.2 rfl⟩

/-- C10: the blank-name check does not make the slug non-empty.  The name `!!!`
passes the check and its slug is empty.  `CreateNewGenre` hands the repository
`Create` a genre with the empty slug, leaves the store `Create` leaves and
returns that genre when `Create` succeeds; `UpdateGenre` of an existing genre
hands `Update` a genre with the empty slug, leaves the store `Update` leaves
and returns that genre when `Update` succeeds.  Over the in-memory table the
row is stored with the empty slug after either call.  The handler
`GetGenreBySlug` answers 400 for the empty slug without calling the service,
also when such a row is stored. -/
theorem blank_check_allows_empty_slug {σ ω : Type} (rt : Runtime)
    (repo : GenreRepository σ) (svc : GenreService ω) :
    stringsTrimSpace "!!!".toList ≠ [] ∧
    generateSlug rt.caseTable "!!!".toList = [] ∧
    (∀ w : World σ, ∃ g : Genre, g.Name = "!!!".toList ∧ g.Slug = [] ∧
      (genreService.CreateNewGenre rt repo "!!!".toList w).2.calls
        = w.calls ++ [RepoCall.Create g] ∧
      (genreService.CreateNewGenre rt repo "!!!".toList w).2.store
        = (repo.Create g w.store).2 ∧
      ((repo.Create g w.store).1 = none →
        (genreService.CreateNewGenre rt repo "!!!".toList w).1 = .ok g)) ∧
    (∀ (w : World σ) (slug : GoString) (g0 : Genre),
      (repo.GetBySlug slug w.store).1 = .ok g0 →
      ∃ g : Genre, g.ID = g0.ID ∧ g.Name = "!!!".toList ∧ g.Slug = [] ∧
        (genreService.UpdateGenre rt repo slug "!!!".toList w).2.calls
          = w.calls ++ [RepoCall.GetBySlug slug, RepoCall.Update g] ∧
        (genreService.UpdateGenre rt repo slug "!!!".toList w).2.store
          = (repo.Update g (repo.GetBySlug slug w.store).2).2 ∧
        ((repo.Update g (repo.GetBySlug slug w.store).2).1 = none →
          (genreService.UpdateGenre rt repo slug "!!!".toList w).1 = .ok g)) ∧
    ((genreService.CreateNewGenre exampleRuntime NewGenreRepository "!!!".toList
        (exampleWorld [])).1 = .ok punctuationGenre ∧
      (genreService.CreateNewGenre exampleRuntime NewGenreRepository "!!!".toList
        (exampleWorld [])).2.store = [punctuationGenre] ∧
      punctuationGenre.Slug = []) ∧
    ((genreService.UpdateGenre exampleRuntime NewGenreRepository "action".toList
        "!!!".toList (exampleWorld [exampleGenre])).1
        = .ok { exampleGenre with Name := "!!!".toList, Slug := [], UpdatedAt := 1000 } ∧
      (genreService.UpdateGenre exampleRuntime NewGenreRepository "action".toList
        "!!!".toList (exampleWorld [exampleGenre])).2.store
        = [{ exampleGenre with Name := "!!!".toList, Slug := [], UpdatedAt := 1000 }]) ∧
    (∀ (h : HandlerState ω) (body : Option GoString),
      GenreHandler.GetGenreBySlug svc { genreSlug := [], body := body } h
        = (⟨StatusBadRequest, .text "Genre slug is required".toList⟩, h)) ∧
    ((GenreHandler.GetGenreBySlug (NewGenreService exampleRuntime NewGenreRepository)
        { genreSlug := punctuationGenre.Slug, body := none }
        (exampleHandlerState [punctuationGenre])).1.status = StatusBadRequest ∧
      (GenreHandler.GetGenreBySlug (NewGenreService exampleRuntime NewGenreRepository)
        { genreSlug := punctuationGenre.Slug, body := none }
        (exampleHandlerState [punctuationGenre])).2.serviceCalls = []) := by
  have hslug : generateSlug rt.caseTable "!!!".toList = [] := by
    simp [generateSlug, stringsToLower, stringsReplaceAll, unicodeToLower, slugRune]
  have htrim : stringsTrimSpace "!!!".toList ≠ [] := by decide
  refine ⟨htrim, hslug, ?_, ?_, ⟨by decide, by decide, rfl⟩, ⟨by decide, by decide⟩, ?_,
    ⟨by decide, by decide⟩⟩
  · intro w
    refine ⟨{ ID := rt.uuidNew w.uuidDraws, Name := "!!!".toList, Slug := [],
              CreatedAt := rt.timeNow w.clockReads,
              UpdatedAt := rt.timeNow (w.clockReads + 1) }, rfl, rfl, ?_, ?_, ?_⟩
    · simp only [genreService.CreateNewGenre, htrim, if_false, hslug]
      cases (repo.Create _ w.store).1 <;> rfl
    · simp only [genreService.CreateNewGenre, htrim, if_false, hslug]
      cases (repo.Create _ w.store).1 <;> rfl
    · intro hc
      simp only [genreService.CreateNewGenre, htrim, if_false, hslug, hc]
  · intro w slug g0 hget
    refine ⟨{ g0 with Name := "!!!".toList, Slug := [],
                      UpdatedAt := rt.timeNow w.clockReads }, rfl, rfl, rfl, ?_, ?_, ?_⟩
    · rw [UpdateGenre_ok_eq rt repo slug "!!!".toList w g0 hget htrim, hslug]
    · rw [UpdateGenre_ok_eq rt repo slug "!!!".toList w g0 hget htrim, hslug]
    · intro hu
      rw [UpdateGenre_ok_eq rt repo slug "!!!".toList w g0 hget htrim, hslug, hu]
  · intro h body
    simp [GenreHandler.GetGenreBySlug]

theorem blank_check_allows_empty_slug_witness :
    (NewGenreRepository.GetBySlug "action".toList [exampleGenre]).1 = .ok exampleGenre ∧
    (∃ g : Genre, g.ID = exampleGenre.ID ∧ g.Name = "!!!".toList ∧ g.Slug = [] ∧
      (genreService.UpdateGenre exampleRuntime NewGenreRepository "action".toList
        "!!!".toList (exampleWorld [exampleGenre])).1 = .ok g ∧
      (genreService.UpdateGenre exampleRuntime NewGenreRepository "action".toList
        "!!!".toList (exampleWorld [exampleGenre])).2.store = [g] ∧
      (genreService.UpdateGenre exampleRuntime NewGenreRepository "action".toList
        "!!!".toList (exampleWorld [exampleGenre])).2.calls
        = [RepoCall.GetBySlug "action".toList, RepoCall.Update g]) ∧
    (∃ g : Genre, g.Name = "!!!".toList ∧ g.Slug = [] ∧
      (genreService.CreateNewGenre exampleRuntime NewGenreRepository "!!!".toList
        (exampleWorld [exampleGenre])).1 = .ok g ∧
      (genreService.CreateNewGenre exampleRuntime NewGenreRepository "!!!".toList
        (exampleWorld [exampleGenre])).2.store = [exampleGenre, g]) :=
  by
  have hall := blank_check_allows_empty_slug exampleRuntime NewGenreRepository
    (NewGenreService exampleRuntime NewGenreRepository)
  refine ⟨by decide, ?_, ?_⟩
  · obtain ⟨g, hid, hn, hs, hcalls, hstore, hok⟩ :=
      hall.2.2.2.1 (exampleWorld [exampleGenre]) "action".toList exampleGenre (by decide)
    have hact : (genreService.UpdateGenre exampleRuntime NewGenreRepository "action".toList
        "!!!".toList (exampleWorld [exampleGenre])).2.calls
        = [RepoCall.GetBySlug "action".toList,
           RepoCall.Update { exampleGenre with Name := "!!!".toList, Slug := [],
                                               UpdatedAt := 1000 }] := by decide
    rw [hact] at hcalls
    have hg : g = { exampleGenre with Name := "!!!".toList, Slug := [],
                                      UpdatedAt := 1000 } := by
      simp only [exampleWorld, List.nil_append, List.cons.injEq, RepoCall.Update.injEq,
        and_true, true_and] at hcalls
      exact hcalls.symm
    have hu : (NewGenreRepository.Update g
        (NewGenreRepository.GetBySlug "action".toList
          (exampleWorld [exampleGenre]).store).2).1 = none := by
      rw [hg]
      decide
    refine ⟨g, hid, hn, hs, hok hu, ?_, ?_⟩
    · rw [hstore, hg]
      decide
    · rw [hact, hg]
  · obtain ⟨g, hn, hs, hcalls, hstore, hok⟩ := hall.2.2.1 (exampleWorld [exampleGenre])
    refine ⟨g, hn, hs, hok rfl, ?_⟩
    rw [hstore]
    rfl

/-! ## Claims on the handlers -/

theorem errorsIs_unique (err : GoError) (a b : Sentinel)
    (ha : errorsIs err a = true) (hb : errorsIs err b = true) : a = b := by
  induction err with
  | domain e =>
    simp only [errorsIs, beq_iff_eq] at ha hb
    rw [← ha, ← hb]
  | errorsNew msg => simp [errorsIs] at ha
  | wrap pre inner ih => exact ih ha hb

/-- C6, the code at the failing inputs: with an empty `genreSlug` the handler
`DeleteGenre` calls the service's `DeleteGenre` with the empty slug and does
not answer 400, and the handler `UpdateGenre`, given a decodable body, calls
the service's `UpdateGenre` with the empty slug.  Over the in-memory table
the two requests reach the repository and are answered 404, and the delete is
answered 204 and removes the row when a genre with the empty slug is stored.
The other guards are there:
`GetGenreBySlug` answers 400 for the empty slug, `CreateGenre` and
`UpdateGenre` answer 400 for a body that cannot be decoded, each without a
service call. -/
theorem handlers_empty_slug_reach_service {ω : Type} (sentinelMsg : Sentinel → GoString)
    (svc : GenreService ω) (h : HandlerState ω) (body : Option GoString)
    (slug name : GoString) :
    (GenreHandler.DeleteGenre svc { genreSlug := [], body := body } h).2.serviceCalls
        = h.serviceCalls ++ [ServiceCall.DeleteGenre []] ∧
    (GenreHandler.DeleteGenre svc { genreSlug := [], body := body } h).1.status
        ≠ StatusBadRequest ∧
    (GenreHandler.UpdateGenre svc { genreSlug := [], body := some name } h).2.serviceCalls
        = h.serviceCalls ++ [ServiceCall.UpdateGenre [] name] ∧
    ((GenreHandler.DeleteGenre (NewGenreService exampleRuntime NewGenreRepository)
        { genreSlug := [], body := none } (exampleHandlerState [exampleGenre])).1.status
        = StatusNotFound ∧
      (GenreHandler.DeleteGenre (NewGenreService exampleRuntime NewGenreRepository)
        { genreSlug := [], body := none } (exampleHandlerState [exampleGenre])).2.service.calls
        = [RepoCall.DeleteBySlug []]) ∧
    ((GenreHandler.DeleteGenre (NewGenreService exampleRuntime NewGenreRepository)
        { genreSlug := [], body := none }
        (exampleHandlerState [exampleGenre, punctuationGenre])).1.status = StatusNoContent ∧
      (GenreHandler.DeleteGenre (NewGenreService exampleRuntime NewGenreRepository)
        { genreSlug := [], body := none }
        (exampleHandlerState [exampleGenre, punctuationGenre])).2.service.store
        = [exampleGenre]) ∧
    ((GenreHandler.UpdateGenre (NewGenreService exampleRuntime NewGenreRepository)
        { genreSlug := [], body := some "Drama".toList }
        (exampleHandlerState [exampleGenre])).1.status = StatusNotFound ∧
      (GenreHandler.UpdateGenre (NewGenreService exampleRuntime NewGenreRepository)
        { genreSlug := [], body := some "Drama".toList }
        (exampleHandlerState [exampleGenre])).2.service.calls
        = [RepoCall.GetBySlug []]) ∧
    GenreHandler.GetGenreBySlug svc { genreSlug := [], body := body } h
        = (⟨StatusBadRequest, .text "Genre slug is required".toList⟩, h) ∧
    GenreHandler.CreateGenre sentinelMsg svc { genreSlug := slug, body := none } h
        = (⟨StatusBadRequest, .text "Invalid request body".toList⟩, h) ∧
    GenreHandler.UpdateGenre svc { genreSlug := slug, body := none } h
        = (⟨StatusBadRequest, .text "Invalid request body".toList⟩, h) := by
  refine ⟨?_, ?_, ?_, ⟨by decide, by decide⟩, ⟨by decide, by decide⟩,
    ⟨by decide, by decide⟩, ?_, rfl, rfl⟩
  · simp only [GenreHandler.DeleteGenre]
    repeat' split
    all_goals rfl
  · simp only [GenreHandler.DeleteGenre]
    repeat' split
    all_goals simp [StatusNotFound, StatusInternalServerError, StatusNoContent,
      StatusBadRequest]
  · simp only [GenreHandler.UpdateGenre]
    repeat' split
    all_goals rfl
  · simp [GenreHandler.GetGenreBySlug]

/-- C7 (as the code has it): the status of every handler once it has called the
service.  `CreateGenre` answers 400 when the message `Error()` of the
service's error is `genre name cannot be empty` and 500 for every other error;
`UpdateGenre` answers 404 for `NotFound`, 400 for `ValidationFailed` and 500
otherwise; `GetGenreBySlug` and `DeleteGenre` answer 404 for `NotFound` and 500
otherwise; `ListGenres` answers 500 for every error; on success the statuses
are 201 (create), 200 (list, get, update) and 204 (delete). -/
theorem handler_status_table {ω : Type} (sentinelMsg : Sentinel → GoString)
    (svc : GenreService ω) (h : HandlerState ω) (slug name : GoString) :
    ((∀ gs, (svc.ListAll h.service).1 = .ok gs →
        (GenreHandler.ListGenres svc h).1.status = StatusOK) ∧
      (∀ err, (svc.ListAll h.service).1 = .error err →
        (GenreHandler.ListGenres svc h).1.status = StatusInternalServerError)) ∧
    (name ≠ [] →
      (∀ g, (svc.CreateNewGenre name h.service).1 = .ok g →
        (GenreHandler.CreateGenre sentinelMsg svc ⟨slug, some name⟩ h).1.status
          = StatusCreated) ∧
      (∀ err, (svc.CreateNewGenre name h.service).1 = .error err →
        (err.Error sentinelMsg = "genre name cannot be empty".toList →
          (GenreHandler.CreateGenre sentinelMsg svc ⟨slug, some name⟩ h).1.status
            = StatusBadRequest) ∧
        (err.Error sentinelMsg ≠ "genre name cannot be empty".toList →
          (GenreHandler.CreateGenre sentinelMsg svc ⟨slug, some name⟩ h).1.status
            = StatusInternalServerError))) ∧
    (slug ≠ [] →
      (∀ g, (svc.FindGenreBySlug slug h.service).1 = .ok g →
        (GenreHandler.GetGenreBySlug svc ⟨slug, none⟩ h).1.status = StatusOK) ∧
      (∀ err, (svc.FindGenreBySlug slug h.service).1 = .error err →
        (errorsIs err .ErrDataNotFound = true →
          (GenreHandler.GetGenreBySlug svc ⟨slug, none⟩ h).1.status = StatusNotFound) ∧
        (errorsIs err .ErrDataNotFound = false →
          (GenreHandler.GetGenreBySlug svc ⟨slug, none⟩ h).1.status
            = StatusInternalServerError))) ∧
    ((∀ g, (svc.UpdateGenre slug name h.service).1 = .ok g →
        (GenreHandler.UpdateGenre svc ⟨slug, some name⟩ h).1.status = StatusOK) ∧
      (∀ err, (svc.UpdateGenre slug name h.service).1 = .error err →
        (errorsIs err .ErrDataNotFound = true →
          (GenreHandler.UpdateGenre svc ⟨slug, some name⟩ h).1.status = StatusNotFound) ∧
        (errorsIs err .ErrValidationFailed = true →
          (GenreHandler.UpdateGenre svc ⟨slug, some name⟩ h).1.status = StatusBadRequest) ∧
        (errorsIs err .ErrDataNotFound = false →
          errorsIs err .ErrValidationFailed = false →
          (GenreHandler.UpdateGenre svc ⟨slug, some name⟩ h).1.status
            = StatusInternalServerError))) ∧
    ((svc.DeleteGenre slug h.service).1 = none →
        (GenreHandler.DeleteGenre svc ⟨slug, none⟩ h).1.status = StatusNoContent) ∧
      (∀ err, (svc.DeleteGenre slug h.service).1 = some err →
        (errorsIs err .ErrDataNotFound = true →
          (GenreHandler.DeleteGenre svc ⟨slug, none⟩ h).1.status = StatusNotFound) ∧
        (errorsIs err .ErrDataNotFound = false →
          (GenreHandler.DeleteGenre svc ⟨slug, none⟩ h).1.status
            = StatusInternalServerError)) := by
  refine ⟨⟨?_, ?_⟩, ?_, ?_, ⟨?_, ?_⟩, ?_, ?_⟩
  · intro gs hr
    simp only [GenreHandler.ListGenres, hr]
  · intro err hr
    simp only [GenreHandler.ListGenres, hr]
  · intro hname
    refine ⟨?_, ?_⟩
    · intro g hr
      simp only [GenreHandler.CreateGenre, hname, if_false, hr]
    · intro err hr
      refine ⟨?_, ?_⟩
      · intro hm
        simp only [GenreHandler.CreateGenre, hname, if_false, hr, hm, if_true]
      · intro hm
        simp only [GenreHandler.CreateGenre, hname, if_false, hr, hm]
  · intro hslug
    refine ⟨?_, ?_⟩
    · intro g hr
      simp only [GenreHandler.GetGenreBySlug, hslug, if_false, hr]
    · intro err hr
      refine ⟨?_, ?_⟩
      · intro hk
        simp [GenreHandler.GetGenreBySlug, hslug, hr, hk]
      · intro hk
        simp [GenreHandler.GetGenreBySlug, hslug, hr, hk]
  · intro g hr
    simp only [GenreHandler.UpdateGenre, hr]
  · intro err hr
    refine ⟨?_, ?_, ?_⟩
    · intro hk
      simp [GenreHandler.UpdateGenre, hr, hk]
    · intro hk
      have hnf : errorsIs err .ErrDataNotFound = false := by
        cases hc : errorsIs err .ErrDataNotFound with
        | false => rfl
        | true => exact absurd (errorsIs_unique err _ _ hc hk) (by decide)
      simp [GenreHandler.UpdateGenre, hr, hk, hnf]
    · intro hk1 hk2
      simp [GenreHandler.UpdateGenre, hr, hk1, hk2]
  · intro hr
    simp only [GenreHandler.DeleteGenre, hr]
  · intro err hr
    refine ⟨?_, ?_⟩
    · intro hk
      simp [GenreHandler.DeleteGenre, hr, hk]
    · intro hk
      simp [GenreHandler.DeleteGenre, hr, hk]

theorem handler_status_table_witness :
    (GenreHandler.CreateGenre (fun _ => "not given".toList)
        (NewGenreService exampleRuntime NewGenreRepository)
        ⟨[], some " ".toList⟩ (exampleHandlerState [])).1.status = StatusBadRequest ∧
    (GenreHandler.UpdateGenre (NewGenreService exampleRuntime NewGenreRepository)
        ⟨"action".toList, some " ".toList⟩ (exampleHandlerState [exampleGenre])).1.status
      = StatusBadRequest ∧
    (GenreHandler.DeleteGenre (NewGenreService exampleRuntime NewGenreRepository)
        ⟨"drama".toList, none⟩ (exampleHandlerState [exampleGenre])).1.status
      = StatusNotFound :=
  ⟨((handler_status_table (fun _ => "not given".toList)
        (NewGenreService exampleRuntime NewGenreRepository) (exampleHandlerState [])
        [] " ".toList).2.1 (by decide)).2
      (.errorsNew "genre name cannot be empty".toList) (by decide) |>.1 (by decide),
    ((handler_status_table (fun _ => "not given".toList)
        (NewGenreService exampleRuntime NewGenreRepository)
        (exampleHandlerState [exampleGenre]) "action".toList " ".toList).2.2.2.1).2
      (.domain .ErrValidationFailed) (by decide) |>.2.1 (by decide),
    ((handler_status_table (fun _ => "not given".toList)
        (NewGenreService exampleRuntime NewGenreRepository)
        (exampleHandlerState [exampleGenre]) "drama".toList []).2.2.2.2).2
      (.domain .ErrDataNotFound) (by decide) |>.1 (by decide)⟩

/-- C7, the claim as stated, fails for `CreateGenre`.  The service over the
in-memory table rejects the name of one space with an error that is not
`ValidationFailed`, and the handler answers 400, not 500; a service failing
with an error that wraps `domain.ErrValidationFailed` is answered 500, not 400;
and so is a service failing with `domain.ErrValidationFailed` itself, unless
the message of that sentinel is `genre name cannot be empty`. -/
theorem CreateGenre_status_by_message :
    (∀ sentinelMsg : Sentinel → GoString,
      ∃ err, ((NewGenreService exampleRuntime NewGenreRepository).CreateNewGenre
          " ".toList (exampleWorld [])).1 = .error err ∧
        errorsIs err .ErrValidationFailed = false ∧
        (GenreHandler.CreateGenre sentinelMsg
          (NewGenreService exampleRuntime NewGenreRepository)
          ⟨[], some " ".toList⟩ (exampleHandlerState [])).1.status = StatusBadRequest) ∧
    (∀ sentinelMsg : Sentinel → GoString,
      errorsIs (.wrap "create: ".toList (.domain .ErrValidationFailed))
          .ErrValidationFailed = true ∧
        (GenreHandler.CreateGenre sentinelMsg
          (failingService (.wrap "create: ".toList (.domain .ErrValidationFailed)))
          ⟨[], some "Drama".toList⟩ ⟨(), []⟩).1.status = StatusInternalServerError) ∧
    (∀ sentinelMsg : Sentinel → GoString,
      sentinelMsg .ErrValidationFailed ≠ "genre name cannot be empty".toList →
        (GenreHandler.CreateGenre sentinelMsg
          (failingService (.domain .ErrValidationFailed))
          ⟨[], some "Drama".toList⟩ ⟨(), []⟩).1.status = StatusInternalServerError) := by
  refine ⟨?_, ?_, ?_⟩
  · intro sentinelMsg
    exact ⟨.errorsNew "genre name cannot be empty".toList, by decide, rfl, rfl⟩
  · intro sentinelMsg
    refine ⟨rfl, ?_⟩
    simp [GenreHandler.CreateGenre, failingService, GoError.Error]
  · intro sentinelMsg hne
    have hd : ("Drama".toList = []) = False := by simp
    simp only [GenreHandler.CreateGenre, failingService, GoError.Error, hd, hne, if_false]

end ComicReader
